import Mathlib

/-!
Verification development for the OMWrapper repository.

The Python sources under `omwrapper/` are shallowly embedded below:
pure functions become Lean functions, stateful methods become explicit
state passing, and code that can raise becomes `Except PyError _` or a
`state × Option PyError` pair (so that mutations performed before a raise
are kept, as in Python).  External Maya API objects (MObject, MPlug,
MFnAttribute, ...) are modelled only through the fields and behaviours
the embedded code actually consults.
-/

/-- Python exception classes raised by the embedded code. -/
inductive PyError where
  | typeError (msg : String)
  | valueError (msg : String)
  | attributeError (msg : String)
  | nameError (msg : String)
  | keyError (msg : String)
  | assertionError (msg : String)
  | notImplementedError (msg : String)
  | indexError (msg : String)
  | runtimeError (msg : String)
deriving DecidableEq, Repr

/-- A small universe of Python values flowing through the embedded code.
Floats are modelled as rationals; opaque external data objects
(MFnStringData results, MObject.kNullObj, matrix data) carry a tag. -/
inductive PyVal where
  | pyNone
  | pyBool (b : Bool)
  | pyInt (i : Int)
  | pyFloat (q : Rat)
  | pyStr (s : String)
  | pyList (l : List PyVal)
  | pyMObject (tag : String)
  | pyApiConst (tag : String)
  | pyAngle (q : Rat)
  | pyDistance (q : Rat)
  | pyTime (q : Rat)

/-! ## omwrapper/pytools.py : Iterator -/

/-- `pytools.Iterator`: a list with a cursor `n`. -/
structure Iterator (α : Type) where
  data : List α
  n : Nat
deriving DecidableEq, Repr

/-- `Iterator.is_done`: `self.n >= len(self.data)`. -/
def Iterator.is_done (it : Iterator α) : Bool :=
  it.data.length ≤ it.n

/-- The `while not it.is_done(): f(it.current_item()); it.next()` loop used by
`CompoundModifier.doIt`/`undoIt`, collecting the effect of each iteration. -/
def Iterator.runLoop (f : α → β) (it : Iterator α) : List β :=
  if h : it.n < it.data.length then
    f (it.data.get ⟨it.n, h⟩) :: Iterator.runLoop f ⟨it.data, it.n + 1⟩
  else
    []
termination_by it.data.length - it.n

theorem Iterator.runLoop_eq (f : α → β) (l : List α) (n : Nat) :
    Iterator.runLoop f ⟨l, n⟩ = (l.drop n).map f := by
  have H : ∀ k m, l.length - m = k → Iterator.runLoop f ⟨l, m⟩ = (l.drop m).map f := by
    intro k
    induction k with
    | zero =>
      intro m hk
      rw [Iterator.runLoop]
      have hm : ¬ m < l.length := by omega
      simp only [hm, dite_false]
      rw [List.drop_eq_nil_of_le (by omega)]
      rfl
    | succ k ih =>
      intro m hk
      rw [Iterator.runLoop]
      have hm : m < l.length := by omega
      simp only [hm, dite_true]
      rw [ih (m + 1) (by omega)]
      rw [List.drop_eq_getElem_cons hm]
      rfl
  exact H _ n rfl

/-! ## omwrapper/api/modifiers/custom.py : CompoundModifier -/

/-- An invocation of one of the two contract methods on a child modifier. -/
inductive ModEvent (α : Type) where
  | doCall (m : α)
  | undoCall (m : α)
deriving DecidableEq, Repr

/-- The child modifier an event was dispatched to. -/
def ModEvent.target : ModEvent α → α
  | .doCall m => m
  | .undoCall m => m

/-- `CompoundModifier`: holds `self.modifiers = list(args)`. -/
structure CompoundModifier (α : Type) where
  modifiers : List α
deriving DecidableEq, Repr

/-- `CompoundModifier.append`. -/
def CompoundModifier.append (c : CompoundModifier α) (m : α) : CompoundModifier α :=
  ⟨c.modifiers ++ [m]⟩

/-- `CompoundModifier.extend`. -/
def CompoundModifier.extend (c : CompoundModifier α) (ms : List α) : CompoundModifier α :=
  ⟨c.modifiers ++ ms⟩

/-- `CompoundModifier.get_iterator`: `Iterator(self.modifiers)` (cursor at 0). -/
def CompoundModifier.get_iterator (c : CompoundModifier α) : Iterator α :=
  ⟨c.modifiers, 0⟩

/-- `CompoundModifier.doIt`: iterates the children and calls `doIt` on each;
the result is the trace of invocations in the order they are issued. -/
def CompoundModifier.doIt (c : CompoundModifier α) : List (ModEvent α) :=
  Iterator.runLoop ModEvent.doCall c.get_iterator

/-- `CompoundModifier.undoIt`: iterates the children (a fresh iterator over the
same list, front to back) and calls `undoIt` on each. -/
def CompoundModifier.undoIt (c : CompoundModifier α) : List (ModEvent α) :=
  Iterator.runLoop ModEvent.undoCall c.get_iterator

/-- C5: `undoIt` dispatches to the children in insertion order, the same child
order as `doIt`; the trace is over `c.modifiers` itself, not its reverse. -/
theorem compoundModifier_undo_insertion_order (α : Type) (c : CompoundModifier α) :
    (c.undoIt).map ModEvent.target = c.modifiers ∧
    (c.doIt).map ModEvent.target = c.modifiers ∧
    (c.undoIt).map ModEvent.target = (c.doIt).map ModEvent.target := by
  unfold CompoundModifier.undoIt CompoundModifier.doIt CompoundModifier.get_iterator
  rw [Iterator.runLoop_eq, Iterator.runLoop_eq]
  refine ⟨?_, ?_, ?_⟩ <;> simp [Function.comp_def, ModEvent.target]

/-! ## omwrapper/constants.py : DataType and AttrType -/

/-- `constants.DataType` enum. -/
inductive DataType where
  | INVALID | DISTANCE | ANGLE | BOOL | FLOAT | INT | FLOAT2 | FLOAT3 | FLOAT4
  | INT2 | INT3 | STRING | MATRIX | ENUM | TIME | MESSAGE | POINT | COLOR
deriving DecidableEq, Repr

/-- `DataType.numeric()`. -/
def DataType.numeric : List DataType :=
  [.FLOAT, .FLOAT2, .FLOAT3, .FLOAT4, .INT, .INT2, .INT3, .BOOL]

/-- `DataType.unit()`. -/
def DataType.unit : List DataType :=
  [.DISTANCE, .ANGLE, .TIME]

/-- The `data_types_to_api` table; API constants are modelled by their
qualified names. -/
def data_types_to_api : DataType → String
  | .DISTANCE => "MFnUnitAttribute.kDistance"
  | .ANGLE => "MFnUnitAttribute.kAngle"
  | .TIME => "MFnUnitAttribute.kTime"
  | .BOOL => "MFnNumericData.kBoolean"
  | .FLOAT => "MFnNumericData.kFloat"
  | .FLOAT2 => "MFnNumericData.k2Float"
  | .FLOAT3 => "MFnNumericData.k3Float"
  | .FLOAT4 => "MFnNumericData.k4Double"
  | .INT => "MFnNumericData.kInt"
  | .INT2 => "MFnNumericData.k2Int"
  | .INT3 => "MFnNumericData.k3Int"
  | _ => "absent from data_types_to_api"

/-- `DataType.to_api_type`: asserts the constant is numeric or unit, then
looks it up in `data_types_to_api`.  Called with `self.data_type`, which may
be `None` (then the assert fails). -/
def DataType.to_api_type (c : Option DataType) : Except PyError PyVal :=
  match c with
  | some dt =>
    if dt ∈ DataType.numeric ∨ dt ∈ DataType.unit then
      Except.ok (.pyApiConst (data_types_to_api dt))
    else
      Except.error (.assertionError "is not a Numeric or Unit Type")
  | none => Except.error (.assertionError "is not a Numeric or Unit Type")

/-- `constants.AttrType` enum. -/
inductive AttrType where
  | INVALID | COMPOUND | ENUM | GENERIC | MATRIX | MESSAGE | STRING | NUMERIC | UNIT
deriving DecidableEq, Repr

/-- `AttrType.from_data_type`.  A `None` data type matches none of the
membership tests and falls through to `INVALID`. -/
def AttrType.from_data_type (data_type : Option DataType) : AttrType :=
  match data_type with
  | none => .INVALID
  | some dt =>
    if dt ∈ DataType.numeric then .NUMERIC
    else if dt ∈ DataType.unit then .UNIT
    else if dt = .ENUM then .ENUM
    else if dt = .MATRIX then .MATRIX
    else if dt = .MESSAGE then .MESSAGE
    else if dt = .STRING then .STRING
    else .INVALID

/-- The Maya function-set classes appearing in `attr_type_to_function_set`. -/
inductive MFnAttrClass where
  | compoundAttr | enumAttr | genericAttr | matrixAttr | messageAttr
  | typedAttr | numericAttr | unitAttr
deriving DecidableEq, Repr

/-- `AttrType.to_function_set`: dictionary lookup, raising `TypeError` when the
constant has no entry (only `INVALID` is absent from the table). -/
def AttrType.to_function_set : AttrType → Except PyError MFnAttrClass
  | .COMPOUND => Except.ok .compoundAttr
  | .ENUM => Except.ok .enumAttr
  | .GENERIC => Except.ok .genericAttr
  | .MATRIX => Except.ok .matrixAttr
  | .MESSAGE => Except.ok .messageAttr
  | .STRING => Except.ok .typedAttr
  | .NUMERIC => Except.ok .numericAttr
  | .UNIT => Except.ok .unitAttr
  | .INVALID => Except.error (.typeError "No function set found for AttrType INVALID")

/-! ## omwrapper/entities/attributes/base.py : AttrData -/

/-- Helper for `pySplit`: walks the characters, cutting at the separator. -/
def splitCharAux (sep : Char) : List Char → List Char → List String
  | [], acc => [String.mk acc.reverse]
  | c :: cs, acc =>
    if c = sep then String.mk acc.reverse :: splitCharAux sep cs []
    else splitCharAux sep cs (c :: acc)

/-- Python `s.split(sep)` for a one-character separator (the only use in the
repository: splitting on a colon and on an equals sign). -/
def pySplit (s : String) (sep : Char) : List String :=
  splitCharAux sep s.data []

/-- The numeric value of a non-empty all-digit character list. -/
def decDigitsVal (ds : List Char) : Option Nat :=
  match ds with
  | [] => none
  | _ =>
    ds.foldl (fun acc c =>
      match acc with
      | none => none
      | some v => if c.isDigit then some (v * 10 + (c.toNat - 48)) else none)
      (some 0)

/-- Python `int(s)` restricted to the plain decimal literals the repository
feeds it (an optional leading minus sign followed by digits). -/
def pyIntOfString (s : String) : Except PyError Int :=
  let v : Option Int :=
    match s.data with
    | '-' :: rest => (decDigitsVal rest).map (fun v => -(v : Int))
    | ds => (decDigitsVal ds).map (fun v => (v : Int))
  match v with
  | some i => Except.ok i
  | none => Except.error (.valueError ("invalid literal for int with base 10: " ++ s))

/-- One iteration of the loop in `AttrData.enum_str_to_field`: `n` is the
`enumerate` index of `enum_field` in the split string. -/
def enumFieldOfPart (n : Nat) (part : String) : Except PyError (String × Int) :=
  if part.data.contains '=' then
    match pySplit part '=' with
    | p0 :: p1 :: _ => do
        let v ← pyIntOfString p1
        Except.ok (p0, v)
    | _ => Except.error (.indexError "list index out of range")
  else
    Except.ok (part, (n : Int))

/-- The `for n, enum_field in enumerate(enum_names.split(':'))` loop body of
`enum_str_to_field`, accumulating `enum_fields` in order. -/
def enumFieldsLoop (n : Nat) : List String → Except PyError (List (String × Int))
  | [] => Except.ok []
  | p :: ps => do
      let f ← enumFieldOfPart n p
      let rest ← enumFieldsLoop (n + 1) ps
      Except.ok (f :: rest)

/-- `AttrData.enum_str_to_field`. -/
def enum_str_to_field (enum_names : String) : Except PyError (List (String × Int)) :=
  enumFieldsLoop 0 (pySplit enum_names ':')

/-- Python `min(fields, key=lambda x: x[1])`: first element of minimal value,
`ValueError` on an empty sequence. -/
def pyMinByVal (l : List (String × Int)) : Except PyError (String × Int) :=
  match l with
  | [] => Except.error (.valueError "min arg is an empty sequence")
  | x :: xs => Except.ok (xs.foldl (fun acc y => if y.2 < acc.2 then y else acc) x)

/-- `list.append` called with two positional arguments, on a value that is
either `None` (the actual default of `AttrData.create_args`, since the
`field(...)` call sits in the annotation slot) or a real list.  Both fail:
`None` has no `append`, and `list.append` takes exactly one argument. -/
def pyAppendTwo (obj : Option (List PyVal)) (a b : PyVal) : Except PyError (List PyVal) :=
  match obj, a, b with
  | none, _, _ =>
      Except.error (.attributeError "NoneType object has no attribute append")
  | some _, _, _ =>
      Except.error (.typeError "append takes exactly one argument (2 given)")

/-- The `parent` argument of `AttrData`: an `AttrData` instance (only its
`long_name` is ever read, at normalization) or a name string. -/
inductive ParentArg where
  | byData (long_name : String)
  | byName (name : String)

/-- The constructor arguments of the `AttrData` dataclass, with the dataclass
defaults.  `create_args` is an ordinary init argument defaulting to `None`
because the `field(init=False, default_factory=list)` call occupies the
annotation position, not the default position. -/
structure AttrDataArgs where
  long_name : String
  attr_type : Option AttrType := none
  data_type : Option DataType := none
  short_name : Option String := none
  default_value : PyVal := .pyNone
  keyable : Bool := false
  readable : Bool := true
  min : PyVal := .pyNone
  max : PyVal := .pyNone
  soft_min : PyVal := .pyNone
  soft_max : PyVal := .pyNone
  multi : Bool := false
  index_matters : Bool := false
  enum_names : Option String := none
  enum_fields : Option (List (String × Int)) := none
  as_filename : Bool := false
  children_count : Option Int := none
  parent : Option ParentArg := none
  create_args : Option (List PyVal) := none

/-- A validated `AttrData` record: the state `_process_data` would leave the
instance in if it returned.  `parent` is normalized to a name. -/
structure AttrData where
  long_name : String
  attr_type : AttrType
  data_type : Option DataType
  short_name : String
  default_value : PyVal
  keyable : Bool
  readable : Bool
  min : PyVal
  max : PyVal
  soft_min : PyVal
  soft_max : PyVal
  multi : Bool
  index_matters : Bool
  enum_names : Option String
  enum_fields : Option (List (String × Int))
  as_filename : Bool
  children_count : Option Int
  parent : Option String
  create_args : List PyVal

/-- Python `value is None` for modelled values. -/
def PyVal.isNone : PyVal → Bool
  | .pyNone => true
  | _ => false

/-- `MFnStringData().create(value)`: builds a string-data MObject; a
non-string argument is rejected by the API binding. -/
def mfnStringDataCreate (v : PyVal) : Except PyError PyVal :=
  match v with
  | .pyStr s => Except.ok (.pyMObject ("MFnStringData:" ++ s))
  | _ => Except.error (.typeError "MFnStringData.create expects a string")

/-- `AttrData.__post_init__` / `_process_data`, translated statement by
statement.  The `create_args.append(long_name, short_name)` call fails for
every possible `create_args` value, so construction never returns a record;
the remaining steps are translated all the same, in source order. -/
def attrDataInit (a : AttrDataArgs) : Except PyError AttrData := do
  -- if self.short_name is None: self.short_name = self.long_name
  let short_name := a.short_name.getD a.long_name
  -- self.create_args.append(self.long_name, self.short_name)
  let ca0 ← pyAppendTwo a.create_args (.pyStr a.long_name) (.pyStr short_name)
  -- if self.attr_type is None: infer from data_type, TypeError on INVALID
  let attr_type ←
    match a.attr_type with
    | some t => Except.ok t
    | none =>
      let t := AttrType.from_data_type a.data_type
      if t = .INVALID then Except.error (.typeError "Invalid attribute type")
      else Except.ok t
  -- UNIT / NUMERIC default value and create_args extension
  let (default_value, ca1) ←
    if (attr_type = .UNIT ∨ attr_type = .NUMERIC) ∧
        a.data_type ≠ some .COLOR ∧ a.data_type ≠ some .FLOAT3 then do
      let dv := if a.default_value.isNone then .pyFloat 0 else a.default_value
      let api ← DataType.to_api_type a.data_type
      Except.ok (dv, ca0 ++ [api, dv])
    else
      Except.ok (a.default_value, ca0)
  -- STRING default value wrapping and create_args extension
  let (default_value, ca2) ←
    if attr_type = .STRING then do
      let dv ← if default_value.isNone then Except.ok (PyVal.pyMObject "kNullObj")
               else mfnStringDataCreate default_value
      Except.ok (dv, ca1 ++ [.pyApiConst "MFnData.kString", dv])
    else
      Except.ok (default_value, ca1)
  -- ENUM field processing and default resolution
  let (enum_fields, default_value) ←
    if attr_type = .ENUM then do
      let fields ←
        match a.enum_names with
        | some s => enum_str_to_field s
        | none =>
          match a.enum_fields with
          | some f => Except.ok f
          | none =>
            Except.error (.valueError "If the AttrType is en ENUM, enum_names or enum_fields is required")
      let dv ←
        if default_value.isNone then do
          let m ← pyMinByVal fields
          Except.ok (PyVal.pyInt m.2)
        else Except.ok default_value
      Except.ok (some fields, dv)
    else
      Except.ok (a.enum_fields, default_value)
  -- COMPOUND children_count check: `if not self.children_count`
  if attr_type = .COMPOUND ∧ (a.children_count = none ∨ a.children_count = some 0) then
    Except.error (.valueError "Compound attributes require a children count > 0")
  else
    -- parent normalization
    let parent : Option String :=
      match a.parent with
      | some (.byData n) => some n
      | some (.byName n) => some n
      | none => none
    Except.ok {
      long_name := a.long_name
      attr_type := attr_type
      data_type := a.data_type
      short_name := short_name
      default_value := default_value
      keyable := a.keyable
      readable := a.readable
      min := a.min
      max := a.max
      soft_min := a.soft_min
      soft_max := a.soft_max
      multi := a.multi
      index_matters := a.index_matters
      enum_names := a.enum_names
      enum_fields := enum_fields
      as_filename := a.as_filename
      children_count := a.children_count
      parent := parent
      create_args := ca2
    }

/-! ## omwrapper/entities/attributes/base.py : AttrFactory -/

/-- The calls `AttrFactory.__new__` issues on the freshly built function set,
in order. -/
inductive MFnCall where
  | create (args : List PyVal)
  | createColor (args : List PyVal)
  | createPoint (args : List PyVal)
  | addField (name : String) (value : Int)
  | setDefaultByName (name : String)
  | setDefault (v : PyVal)
  | setMin (v : PyVal)
  | setMax (v : PyVal)
  | setSoftMin (v : PyVal)
  | setSoftMax (v : PyVal)
  | setUsedAsFilename (b : Bool)

/-- Whether a call is one of the three dedicated non-minimum bound setters. -/
def MFnCall.isDedicatedUpperBoundSetter : MFnCall → Bool
  | .setMax _ => true
  | .setSoftMin _ => true
  | .setSoftMax _ => true
  | _ => false

/-- Whether a call is `setMin`. -/
def MFnCall.isSetMin : MFnCall → Bool
  | .setMin _ => true
  | _ => false

/-- `AttrFactory.__new__`, as the trace of function-set calls it performs.
In the bounds post-processing the source calls `mfn.setMin` in all four
branches (`min`, `max`, `soft_min`, `soft_max` - base.py lines 622-629). -/
def AttrFactory (data : AttrData) : Except PyError (List MFnCall) := do
  -- mfn = AttrType.to_function_set(data.attr_type)()
  let _fnClass ← AttrType.to_function_set data.attr_type
  -- create call: special cases for COLOR and FLOAT3 numeric attributes
  let createCall :=
    if data.attr_type = .NUMERIC ∧
        (data.data_type = some .COLOR ∨ data.data_type = some .FLOAT3) then
      if data.data_type = some .COLOR then MFnCall.createColor data.create_args
      else MFnCall.createPoint data.create_args
    else MFnCall.create data.create_args
  -- ENUM post-processing: add the fields one by one, then set the default
  let enumCalls ←
    if data.attr_type = .ENUM then
      match data.enum_fields with
      | none => Except.error (.typeError "NoneType object is not iterable")
      | some fields =>
        let adds := fields.map (fun p => MFnCall.addField p.1 p.2)
        match data.default_value with
        | .pyStr s => Except.ok (adds ++ [MFnCall.setDefaultByName s])
        | v => Except.ok (adds ++ [MFnCall.setDefault v])
    else Except.ok []
  -- UNIT / NUMERIC bounds: every present bound is applied with mfn.setMin
  let boundCalls :=
    if data.attr_type = .UNIT ∨ data.attr_type = .NUMERIC then
      (if data.min.isNone then [] else [MFnCall.setMin data.min]) ++
      (if data.max.isNone then [] else [MFnCall.setMin data.max]) ++
      (if data.soft_min.isNone then [] else [MFnCall.setMin data.soft_min]) ++
      (if data.soft_max.isNone then [] else [MFnCall.setMin data.soft_max])
    else []
  -- STRING post-processing
  let strCalls :=
    if data.attr_type = .STRING then [MFnCall.setUsedAsFilename data.as_filename]
    else []
  Except.ok ([createCall] ++ enumCalls ++ boundCalls ++ strCalls)

/-- A numeric float descriptor carrying all four bounds, as the validated
record `_process_data` was meant to produce for
`AttrData(long_name="float_a", data_type=FLOAT, min=-10, max=10,
soft_min=-5, soft_max=5, default_value=1.0)`. -/
def numericBoundsData : AttrData where
  long_name := "float_a"
  attr_type := .NUMERIC
  data_type := some .FLOAT
  short_name := "float_a"
  default_value := .pyFloat 1
  keyable := true
  readable := true
  min := .pyInt (-10)
  max := .pyInt 10
  soft_min := .pyInt (-5)
  soft_max := .pyInt 5
  multi := false
  index_matters := false
  enum_names := none
  enum_fields := none
  as_filename := false
  children_count := none
  parent := none
  create_args := [.pyStr "float_a", .pyStr "float_a",
                  .pyApiConst "MFnNumericData.kFloat", .pyFloat 1]

/-- The call trace `AttrFactory` produces for `numericBoundsData`. -/
def numericBoundsTrace : List MFnCall :=
  [MFnCall.create [.pyStr "float_a", .pyStr "float_a",
                   .pyApiConst "MFnNumericData.kFloat", .pyFloat 1],
   MFnCall.setMin (.pyInt (-10)), MFnCall.setMin (.pyInt 10),
   MFnCall.setMin (.pyInt (-5)), MFnCall.setMin (.pyInt 5)]

/-- Claim C2 (code_bug evidence): for a numeric descriptor carrying all four
bound kinds, the builder issues `setMin` four times and never calls the
dedicated `setMax` / `setSoftMin` / `setSoftMax` setters, contradicting the
claim that each bound kind is applied with its own setter. -/
theorem attrFactory_bounds_all_collapse_to_setMin :
    AttrFactory numericBoundsData = Except.ok numericBoundsTrace ∧
    numericBoundsTrace.all (fun c => !c.isDedicatedUpperBoundSetter) = true ∧
    numericBoundsTrace.countP (fun c => c.isSetMin) = 4 := by
  refine ⟨rfl, rfl, rfl⟩

/-- Claim C3: every `AttrData` construction raises inside `__post_init__`:
`create_args` defaults to `None` (the `field(...)` call sits in the
annotation position), `None.append` raises `AttributeError`, and even an
explicitly supplied list fails because `list.append` is called with two
arguments.  No descriptor ever reaches the validated state. -/
theorem attrData_construction_always_raises (a : AttrDataArgs) :
    ∃ e, attrDataInit a = Except.error e := by
  cases h : a.create_args with
  | none =>
    exact ⟨PyError.attributeError "NoneType object has no attribute append",
      by simp [attrDataInit, pyAppendTwo, h, Bind.bind, Except.bind]⟩
  | some l =>
    exact ⟨PyError.typeError "append takes exactly one argument (2 given)",
      by simp [attrDataInit, pyAppendTwo, h, Bind.bind, Except.bind]⟩

/-- The constructor arguments of `basics.py` line 39:
`AttrData(enum_b, attr_type=ENUM, enum_names=yellow=0:red=10:blue=100)`. -/
def enumConstructorArgs : AttrDataArgs where
  long_name := "enum_b"
  attr_type := some .ENUM
  enum_names := some "yellow=0:red=10:blue=100"
  keyable := true

/-- Claim C6 (code_bug evidence): the field-string parser does yield
`[(yellow,0), (red,10), (blue,100)]` and the min-by-value default resolution
applied to that table does pick the `yellow`/`0` field, but constructing the
enum descriptor itself never reaches that step: `__post_init__` raises
`AttributeError` on `create_args.append`. -/
theorem enum_parse_ok_but_construction_raises :
    enum_str_to_field "yellow=0:red=10:blue=100" =
      Except.ok [("yellow", 0), ("red", 10), ("blue", 100)] ∧
    pyMinByVal [("yellow", 0), ("red", 10), ("blue", 100)] = Except.ok ("yellow", 0) ∧
    attrDataInit enumConstructorArgs =
      Except.error (.attributeError "NoneType object has no attribute append") := by
  refine ⟨by rfl, by rfl, by rfl⟩

/-! ## omwrapper/entities/attributes/base.py : AttributeHandler -/

/-- An `MFnAttribute` object as the handler observes it: its `name`, whether
it is an `MFnCompoundAttribute`, and its current `numChildren()`. -/
structure MFnAttrObj where
  name : String
  isCompound : Bool
  numChildren : Nat
deriving DecidableEq, Repr

/-- The state an `AttributeHandler` threads: a heap of function-set objects
keyed by identity (`fns`), the two instance attributes `compound_buffer`
(an insertion-ordered dict from function set to the buffered
`children_count` value) and `added_compound`, the attribute names present on
the node (what `node_fn.hasAttribute` consults), the attach operations
staged on the modifier (`mod_queue`), and the `addChild` calls made on
already-attached parents. -/
structure AttributeHandler where
  fns : List (Nat × MFnAttrObj)
  compound_buffer : List (Nat × Option Int)
  added_compound : List Nat
  node_attrs : List String
  mod_queue : List Nat
  attached_children : List (String × Nat)
deriving DecidableEq, Repr

/-- Dict assignment `d[k] = v` on an insertion-ordered association list. -/
def dictSet (d : List (Nat × Option Int)) (k : Nat) (v : Option Int) :
    List (Nat × Option Int) :=
  if d.any (fun p => p.1 == k) then
    d.map (fun p => if p.1 == k then (k, v) else p)
  else
    d ++ [(k, v)]

/-- Dict `d.pop(k)`: removes the key, `KeyError` when absent. -/
def dictPop (d : List (Nat × Option Int)) (k : Nat) :
    Except PyError (List (Nat × Option Int)) :=
  if d.any (fun p => p.1 == k) then
    Except.ok (d.filter (fun p => !(p.1 == k)))
  else
    Except.error (.keyError "key not in compound_buffer")

/-- Subscripting the buffered `children_count` (`self.compound_buffer[fn][1]`
in `_is_ready`): the stored value is the plain int passed to
`_buffer_compound` (or `None`), so the subscript raises `TypeError`. -/
def pySubscriptBufVal (v : Option Int) (_i : Nat) : Except PyError Int :=
  match v with
  | some _ => Except.error (.typeError "int object is not subscriptable")
  | none => Except.error (.typeError "NoneType object is not subscriptable")

/-- `AttributeHandler._buffer_compound`:
`self.compound_buffer[fn] = children_count`. -/
def AttributeHandler.buffer_compound (st : AttributeHandler) (fnId : Nat)
    (children_count : Option Int) : AttributeHandler :=
  { st with compound_buffer := dictSet st.compound_buffer fnId children_count }

/-- `AttributeHandler._do_add`: stages `modifier.addAttribute(node, fn.object())`
and records the compound in `added_compound` when it sits in the buffer. -/
def AttributeHandler.do_add (st : AttributeHandler) (fnId : Nat) : AttributeHandler :=
  let st1 := { st with mod_queue := st.mod_queue ++ [fnId] }
  if st1.compound_buffer.any (fun p => p.1 == fnId) then
    { st1 with added_compound := st1.added_compound ++ [fnId] }
  else
    st1

/-- `AttributeHandler._is_ready`: reads `self.compound_buffer[fn][1]` first;
since `_buffer_compound` stored a bare int (or `None`), the `[1]` subscript
raises `TypeError` before the (dead) membership and children-count tests. -/
def AttributeHandler.is_ready (st : AttributeHandler) (fnId : Nat) :
    Except PyError Bool := do
  let bufVal ←
    match st.compound_buffer.lookup fnId with
    | some v => Except.ok v
    | none => Except.error (.keyError "fn not in compound_buffer")
  let count ← pySubscriptBufVal bufVal 1
  if st.added_compound.contains fnId then
    Except.ok false
  else
    match st.fns.lookup fnId with
    | some fn => Except.ok (decide ((fn.numChildren : Int) ≥ count))
    | none => Except.error (.keyError "unknown fn object")

/-- The `for fn in checklist: if self._is_ready(fn): self._do_add(fn, ...)`
loop of `_eval_compound_buffer`; an exception keeps the state mutated so far. -/
def AttributeHandler.eval_loop :
    AttributeHandler → List Nat → AttributeHandler × Option PyError
  | st, [] => (st, none)
  | st, k :: ks =>
    match st.is_ready k with
    | .error e => (st, some e)
    | .ok true => AttributeHandler.eval_loop (st.do_add k) ks
    | .ok false => AttributeHandler.eval_loop st ks

/-- `AttributeHandler._eval_compound_buffer`: checks one pending compound, or
the whole buffer when `fn is None`. -/
def AttributeHandler.eval_compound_buffer (st : AttributeHandler)
    (fn : Option Nat) : AttributeHandler × Option PyError :=
  match fn with
  | none => st.eval_loop (st.compound_buffer.map (fun p => p.1))
  | some k => st.eval_loop [k]

/-- `AttributeHandler._find_pending_compound`: first buffered function set
whose `name` matches, `ValueError` otherwise.  (Every buffered id has a heap
entry: the key of `compound_buffer` is the live object itself.) -/
def AttributeHandler.find_pending_compound (st : AttributeHandler) (name : String) :
    Except PyError Nat :=
  match st.compound_buffer.find? (fun p =>
      match st.fns.lookup p.1 with
      | some fn => fn.name == name
      | none => false) with
  | some p => Except.ok p.1
  | none =>
    Except.error (.valueError ("Could not find an pending compound attribute named " ++ name))

/-- `MFnCompoundAttribute.addChild`: the parent gains one structural child. -/
def AttributeHandler.addChildToFn (st : AttributeHandler) (parentId : Nat) :
    AttributeHandler :=
  { st with fns := st.fns.map (fun p =>
      if p.1 == parentId then
        (p.1, { p.2 with numChildren := p.2.numChildren + 1 })
      else p) }

/-- `AttributeHandler.add_attribute` (the undecorated method body). -/
def AttributeHandler.add_attribute (st : AttributeHandler) (fnId : Nat)
    (children_count : Option Int) (parent : Option String) :
    AttributeHandler × Option PyError :=
  match parent with
  | none =>
    match st.fns.lookup fnId with
    | none => (st, some (.keyError "unknown fn object"))
    | some fn =>
      if fn.isCompound then (st.buffer_compound fnId children_count, none)
      else (st.do_add fnId, none)
  | some p =>
    if st.node_attrs.contains p then
      -- parent already attached: queue the child for direct attachment, then
      -- parent_fn.addChild(fn.object()) on the attached compound
      let st1 := st.do_add fnId
      ({ st1 with attached_children := st1.attached_children ++ [(p, fnId)] }, none)
    else
      match st.find_pending_compound p with
      | .error e => (st, some e)
      | .ok parentId =>
        let st1 := st.addChildToFn parentId
        st1.eval_compound_buffer (some parentId)

/-- The `for k in self.added_compound: self.compound_buffer.pop(k)` loop of
`purge`; on a `KeyError` the pops already performed stay applied. -/
def purgeLoop :
    List (Nat × Option Int) → List Nat → List (Nat × Option Int) × Option PyError
  | d, [] => (d, none)
  | d, k :: ks =>
    match dictPop d k with
    | .ok d2 => purgeLoop d2 ks
    | .error e => (d, some e)

/-- `AttributeHandler.purge`: pops every `added_compound` entry from the
buffer, then resets `added_compound` to the empty list. -/
def AttributeHandler.purge (st : AttributeHandler) : AttributeHandler × Option PyError :=
  match purgeLoop st.compound_buffer st.added_compound with
  | (d, none) => ({ st with compound_buffer := d, added_compound := [] }, none)
  | (d, some e) => ({ st with compound_buffer := d }, some e)

/-- The fresh handler of a node with no user attributes, with a compound
function set (id 1, `attr_group`, required children count 1 at the call
site) and a float child function set (id 2, `float_a`) already built. -/
def bufferScenarioStart : AttributeHandler where
  fns := [(1, ⟨"attr_group", true, 0⟩), (2, ⟨"float_a", false, 0⟩)]
  compound_buffer := []
  added_compound := []
  node_attrs := []
  mod_queue := []
  attached_children := []

/-- The handler after `add_attribute(attr_group, children_count=1)`. -/
def bufferScenarioAfterCompound : AttributeHandler :=
  (bufferScenarioStart.add_attribute 1 (some 1) none).1

/-- Claim C1 (code_bug evidence): buffering the compound succeeds and stages
nothing, but adding its first (and `K`-th, with `K = 1`) child raises
`TypeError` inside `_is_ready` - the buffer stores the bare children count
while `_is_ready` subscripts it - so the compound is never queued at all. -/
theorem compound_readiness_check_raises :
    (bufferScenarioStart.add_attribute 1 (some 1) none).2 = none ∧
    bufferScenarioAfterCompound.compound_buffer = [(1, some 1)] ∧
    bufferScenarioAfterCompound.mod_queue = [] ∧
    (bufferScenarioAfterCompound.add_attribute 2 none (some "attr_group")).2
      = some (.typeError "int object is not subscriptable") ∧
    (bufferScenarioAfterCompound.add_attribute 2 none (some "attr_group")).1.mod_queue = [] ∧
    (bufferScenarioAfterCompound.add_attribute 2 none (some "attr_group")).1.added_compound = [] := by
  refine ⟨rfl, rfl, rfl, rfl, rfl, rfl⟩

theorem purgeLoop_removes (ks : List Nat) :
    ∀ d : List (Nat × Option Int), ks.Nodup →
      (∀ k ∈ ks, d.any (fun p => p.1 == k) = true) →
      purgeLoop d ks = (d.filter (fun p => !(ks.contains p.1)), none) := by
  induction ks with
  | nil =>
    intro d _ _
    simp [purgeLoop]
  | cons k ks ih =>
    intro d hnd hall
    have hk : d.any (fun p => p.1 == k) = true := hall k (by simp)
    have hne : k ∉ ks := by
      rcases List.nodup_cons.mp hnd with ⟨h, _⟩
      exact h
    have hnd2 : ks.Nodup := (List.nodup_cons.mp hnd).2
    rw [purgeLoop, dictPop]
    simp only [hk, if_true]
    rw [ih (d.filter (fun p => !(p.1 == k))) hnd2 ?_]
    · rw [List.filter_filter]
      refine congrArg (fun l => (l, (none : Option PyError))) ?_
      refine List.filter_congr ?_
      intro p _
      rw [List.contains_cons, Bool.not_or]
      exact Bool.and_comm _ _
    · intro k2 hk2
      have hda : d.any (fun p => p.1 == k2) = true := hall k2 (by simp [hk2])
      rcases List.any_eq_true.mp hda with ⟨p, hp, hpk2⟩
      refine List.any_eq_true.mpr ⟨p, List.mem_filter.mpr ⟨hp, ?_⟩, hpk2⟩
      have hpk2eq : p.1 = k2 := eq_of_beq hpk2
      have hpknot : ¬ (p.1 = k) := by
        intro hcontra
        apply hne
        have hkk2 : k = k2 := by rw [← hcontra, hpk2eq]
        rw [hkk2]
        exact hk2
      simp [hpknot]

/-- Claim C8: after a commit cycle (every `added_compound` entry distinct and
present in the buffer, which `_do_add` guarantees), `purge()` removes exactly
the queued compounds from the buffer, clears the queued list, and a second
`purge()` returns the state unchanged with no error. -/
theorem purge_idempotent (st : AttributeHandler)
    (h1 : st.added_compound.Nodup)
    (h2 : ∀ k ∈ st.added_compound, st.compound_buffer.any (fun p => p.1 == k) = true) :
    (st.purge).2 = none ∧
    (st.purge).1.compound_buffer
      = st.compound_buffer.filter (fun p => !(st.added_compound.contains p.1)) ∧
    (st.purge).1.added_compound = [] ∧
    (st.purge).1.purge = ((st.purge).1, none) := by
  have hloop := purgeLoop_removes st.added_compound st.compound_buffer h1 h2
  have hpurge : st.purge
      = ({ st with
            compound_buffer :=
              st.compound_buffer.filter (fun p => !(st.added_compound.contains p.1)),
            added_compound := [] }, none) := by
    unfold AttributeHandler.purge
    rw [hloop]
  refine ⟨by rw [hpurge], by rw [hpurge], by rw [hpurge], ?_⟩
  rw [hpurge]
  unfold AttributeHandler.purge
  simp [purgeLoop]

/-- A handler state after one commit cycle: compound 1 was queued during the
cycle, compound 2 is still pending. -/
def purgeScenario : AttributeHandler where
  fns := [(1, ⟨"grp_a", true, 3⟩), (2, ⟨"grp_b", true, 1⟩)]
  compound_buffer := [(1, some 3), (2, some 2)]
  added_compound := [1]
  node_attrs := ["grp_a"]
  mod_queue := [1]
  attached_children := []

/-- Witness for C8 at a concrete post-commit state. -/
theorem purge_idempotent_witness :
    (purgeScenario.purge).2 = none ∧
    (purgeScenario.purge).1.compound_buffer
      = purgeScenario.compound_buffer.filter
          (fun p => !(purgeScenario.added_compound.contains p.1)) ∧
    (purgeScenario.purge).1.added_compound = [] ∧
    (purgeScenario.purge).1.purge = ((purgeScenario.purge).1, none) :=
  purge_idempotent purgeScenario (by decide) (by decide)

/-! ## omwrapper/entities/nodes/dependency.py : DependNode.add_attr -/

/-- `DependNode.add_attr`: builds the function set with `AttrFactory(data)`
(a free-standing object, no node mutation), then checks the long and short
names against `has_attr` and raises `NameError` on the first hit, and only
then hands the function set to the handler. -/
def DependNode.add_attr (st : AttributeHandler) (data : AttrData) :
    AttributeHandler × Option PyError :=
  match AttrFactory data with
  | .error e => (st, some e)
  | .ok _calls =>
    if st.node_attrs.contains data.long_name then
      (st, some (.nameError ("there is already an attribute named " ++ data.long_name)))
    else if st.node_attrs.contains data.short_name then
      (st, some (.nameError ("there is already an attribute named " ++ data.short_name)))
    else
      let fnId := st.fns.foldl (fun m p => max m p.1) 0 + 1
      let fn : MFnAttrObj :=
        { name := data.long_name,
          isCompound := decide (data.attr_type = AttrType.COMPOUND),
          numChildren := 0 }
      let st1 := { st with fns := st.fns ++ [(fnId, fn)] }
      st1.add_attribute fnId data.children_count data.parent

/-- Claim C7: for every node state and buildable descriptor whose long or
short name is already on the node, `add_attr` raises the duplicate-name
`NameError` and leaves the whole state (node attributes, staging buffer,
modifier queue) unchanged. -/
theorem add_attr_duplicate_name_rejected (st : AttributeHandler) (data : AttrData)
    (hbuild : ∃ calls, AttrFactory data = Except.ok calls)
    (hdup : st.node_attrs.contains data.long_name = true ∨
            st.node_attrs.contains data.short_name = true) :
    (∃ n, (DependNode.add_attr st data).2
        = some (.nameError ("there is already an attribute named " ++ n)) ∧
      (n = data.long_name ∨ n = data.short_name)) ∧
    (DependNode.add_attr st data).1 = st := by
  rcases hbuild with ⟨calls, hcalls⟩
  unfold DependNode.add_attr
  rw [hcalls]
  cases hlong : st.node_attrs.contains data.long_name with
  | true =>
    exact ⟨⟨data.long_name, rfl, Or.inl rfl⟩, rfl⟩
  | false =>
    have hshort : st.node_attrs.contains data.short_name = true := by
      rcases hdup with h | h
      · rw [hlong] at h
        exact absurd h (by simp)
      · exact h
    rw [hshort]
    exact ⟨⟨data.short_name, rfl, Or.inr rfl⟩, rfl⟩

/-- The validated record for `AttrData("ikfk", data_type=BOOL)`. -/
def ikfkData : AttrData where
  long_name := "ikfk"
  attr_type := .NUMERIC
  data_type := some .BOOL
  short_name := "ikfk"
  default_value := .pyBool true
  keyable := true
  readable := true
  min := .pyNone
  max := .pyNone
  soft_min := .pyNone
  soft_max := .pyNone
  multi := false
  index_matters := false
  enum_names := none
  enum_fields := none
  as_filename := false
  children_count := none
  parent := none
  create_args := [.pyStr "ikfk", .pyStr "ikfk",
                  .pyApiConst "MFnNumericData.kBoolean", .pyBool true]

/-- A node that already carries an attribute named `ikfk`. -/
def nodeWithIkfk : AttributeHandler where
  fns := []
  compound_buffer := []
  added_compound := []
  node_attrs := ["ikfk"]
  mod_queue := []
  attached_children := []

/-- Witness for C7: re-adding `ikfk` to a node that has it raises the
duplicate-name error and changes nothing. -/
theorem add_attr_duplicate_name_rejected_witness :
    (∃ n, (DependNode.add_attr nodeWithIkfk ikfkData).2
        = some (.nameError ("there is already an attribute named " ++ n)) ∧
      (n = ikfkData.long_name ∨ n = ikfkData.short_name)) ∧
    (DependNode.add_attr nodeWithIkfk ikfkData).1 = nodeWithIkfk :=
  add_attr_duplicate_name_rejected nodeWithIkfk ikfkData ⟨_, rfl⟩ (Or.inl (by decide))

/-! ## omwrapper/entities/attributes/base.py : Attribute property setters -/

/-- The MPlug flags the property setters read and write. -/
structure PlugState where
  isKeyable : Bool
  isChannelBox : Bool
  isLocked : Bool
deriving DecidableEq, Repr

/-- Which direct setter a property `ProxyModifier` wraps. -/
inductive PropTarget where
  | keyable | displayable | locked
deriving DecidableEq, Repr

/-- The `ProxyModifier` built by an undoable property setter: the same direct
setter with the new value in `do_kwargs` and the captured old value in
`undo_kwargs`. -/
structure ProxyModifierSpec where
  target : PropTarget
  do_value : Bool
  undo_value : Bool
deriving DecidableEq, Repr

/-- An `apiundo.commit(undo=modifier.undoIt, redo=modifier.doIt)` call. -/
inductive ApiUndoEvent where
  | commit (m : ProxyModifierSpec)
deriving DecidableEq, Repr

/-- Everything a property-setter entry point produces: the mutated plug, the
undo-ledger registrations, and the Python return value (the body of
`set_keyable` / `set_locked` / `set_displayable` has no return statement,
and the decorator returns whatever the body returned). -/
structure SetterResult where
  plug : PlugState
  ledger : List ApiUndoEvent
  ret : Option ProxyModifierSpec
deriving DecidableEq, Repr

/-- `Attribute.set_keyable_` (direct, non-undoable form): sets `isKeyable`,
and sets `isChannelBox` to the opposite of the new keyable value. -/
def Attribute.set_keyable_direct (value : Bool) (mplug : PlugState) : PlugState :=
  { mplug with isKeyable := value, isChannelBox := !value }

/-- `Attribute.set_displayable_` (direct form). -/
def Attribute.set_displayable_direct (value : Bool) (mplug : PlugState) : PlugState :=
  { mplug with isChannelBox := value }

/-- `Attribute.set_locked_` (direct form). -/
def Attribute.set_locked_direct (value : Bool) (mplug : PlugState) : PlugState :=
  { mplug with isLocked := value }

/-- `Attribute.set_keyable` (undoable form): captures the old value, builds
the `ProxyModifier`, runs `doIt`, registers the pair with `apiundo.commit`,
and falls off the end of the body (returning `None`). -/
def Attribute.set_keyable (value : Bool) (mplug : PlugState) : SetterResult :=
  let old_value := mplug.isKeyable
  let modifier : ProxyModifierSpec := ⟨.keyable, value, old_value⟩
  let mplug1 := Attribute.set_keyable_direct value mplug
  { plug := mplug1, ledger := [.commit modifier], ret := none }

/-- `Attribute.set_displayable` (undoable form). -/
def Attribute.set_displayable (value : Bool) (mplug : PlugState) : SetterResult :=
  let old_value := mplug.isChannelBox
  let modifier : ProxyModifierSpec := ⟨.displayable, value, old_value⟩
  let mplug1 := Attribute.set_displayable_direct value mplug
  { plug := mplug1, ledger := [.commit modifier], ret := none }

/-- `Attribute.set_locked` (undoable form). -/
def Attribute.set_locked (value : Bool) (mplug : PlugState) : SetterResult :=
  let old_value := mplug.isLocked
  let modifier : ProxyModifierSpec := ⟨.locked, value, old_value⟩
  let mplug1 := Attribute.set_locked_direct value mplug
  { plug := mplug1, ledger := [.commit modifier], ret := none }

/-- Claim C9 counterexample: on a concrete plug none of the three undoable
property setters returns the Proxy Operation it built - each returns
`None`. -/
theorem property_setters_return_none :
    (Attribute.set_keyable true ⟨false, true, false⟩).ret = none ∧
    (Attribute.set_locked true ⟨false, true, false⟩).ret = none ∧
    (Attribute.set_displayable true ⟨false, true, false⟩).ret = none :=
  ⟨rfl, rfl, rfl⟩

/-- Claim C9 as amended: each undoable property setter builds exactly one
Proxy Operation (new value as the do bundle, captured old value as the undo
bundle), executes it, registers it on the undo ledger - but returns `None`
rather than the Proxy Operation. -/
theorem property_setters_execute_and_register (value : Bool) (mplug : PlugState) :
    ((Attribute.set_keyable value mplug).ret = none ∧
     (Attribute.set_keyable value mplug).ledger
        = [.commit ⟨.keyable, value, mplug.isKeyable⟩] ∧
     (Attribute.set_keyable value mplug).plug = Attribute.set_keyable_direct value mplug) ∧
    ((Attribute.set_locked value mplug).ret = none ∧
     (Attribute.set_locked value mplug).ledger
        = [.commit ⟨.locked, value, mplug.isLocked⟩] ∧
     (Attribute.set_locked value mplug).plug = Attribute.set_locked_direct value mplug) ∧
    ((Attribute.set_displayable value mplug).ret = none ∧
     (Attribute.set_displayable value mplug).ledger
        = [.commit ⟨.displayable, value, mplug.isChannelBox⟩] ∧
     (Attribute.set_displayable value mplug).plug
        = Attribute.set_displayable_direct value mplug) :=
  ⟨⟨rfl, rfl, rfl⟩, ⟨rfl, rfl, rfl⟩, ⟨rfl, rfl, rfl⟩⟩

/-! ## omwrapper/api/modifiers/maya.py : DGModifier.set_plug_value -/

/-- A plug as `set_plug_value` observes it: the `DataType` its attribute
classifies to via `DataType.from_mobject`, its `isCompound` flag, the field
table of its enum attribute (consulted by `MFnEnumAttribute.fieldValue`),
and its children. -/
inductive Plug where
  | mk (dt : DataType) (isCompound : Bool) (enumFields : List (String × Int))
       (children : List Plug)

/-- The `newPlugValueXXX` calls staged on the modifier; a plug is identified
by its child-index path from the plug the outer call received. -/
inductive PlugWrite where
  | newPlugValue (path : List Nat) (v : PyVal)
  | newPlugValueFloat (path : List Nat) (v : PyVal)
  | newPlugValueInt (path : List Nat) (v : PyVal)
  | newPlugValueBool (path : List Nat) (v : PyVal)
  | newPlugValueMAngle (path : List Nat) (v : PyVal)
  | newPlugValueMDistance (path : List Nat) (v : PyVal)
  | newPlugValueString (path : List Nat) (v : PyVal)

/-- Python `len(value)`. -/
def pyLen : PyVal → Except PyError Nat
  | .pyList l => Except.ok l.length
  | .pyStr s => Except.ok s.length
  | _ => Except.error (.typeError "object has no len")

/-- Python `value[i]` for the sequence values `len` accepts. -/
def pyGetItem : PyVal → Nat → Except PyError PyVal
  | .pyList l, i =>
    match l.get? i with
    | some v => Except.ok v
    | none => Except.error (.indexError "list index out of range")
  | .pyStr s, i =>
    match s.data.get? i with
    | some c => Except.ok (.pyStr (String.mk [c]))
    | none => Except.error (.indexError "string index out of range")
  | _, _ => Except.error (.typeError "object is not subscriptable")

/-- The numeric coercion applied by the `MAngle` / `MDistance` / `MTime`
constructors. -/
def pyToRatNum : PyVal → Except PyError Rat
  | .pyInt i => Except.ok (i : Rat)
  | .pyFloat q => Except.ok q
  | .pyBool b => Except.ok (if b then 1 else 0)
  | _ => Except.error (.typeError "a float is required")

/-- `DataType.to_angle`. -/
def DataType.to_angle (v : PyVal) : Except PyError PyVal := do
  let q ← pyToRatNum v
  Except.ok (.pyAngle q)

/-- `DataType.to_distance`. -/
def DataType.to_distance (v : PyVal) : Except PyError PyVal := do
  let q ← pyToRatNum v
  Except.ok (.pyDistance q)

/-- Python `str(value)` as used by `DataType.to_string`, rendered for the
modelled values. -/
def pyStrRender : PyVal → String
  | .pyNone => "None"
  | .pyBool b => if b then "True" else "False"
  | .pyInt i => toString i
  | .pyFloat q => toString q
  | .pyStr s => s
  | .pyList _ => "[...]"
  | .pyMObject t => t
  | .pyApiConst t => t
  | .pyAngle _ => "MAngle"
  | .pyDistance _ => "MDistance"
  | .pyTime _ => "MTime"

/-- `DataType.to_matrix`: accepts a list of 4 row lists or a flat list of 16
entries, `ValueError` otherwise; the caller wraps the result in
`MFnMatrixData`. -/
def DataType.to_matrix (v : PyVal) : Except PyError PyVal :=
  match v with
  | .pyList l =>
    if l.length = 4 ∧ l.all (fun x => match x with | .pyList _ => true | _ => false) then
      Except.ok (.pyMObject "MFnMatrixData")
    else if l.length = 16 then
      Except.ok (.pyMObject "MFnMatrixData")
    else
      Except.error (.valueError "does not represent a matrix")
  | _ => Except.error (.valueError "does not represent a matrix")

/-- The `newPlugValueXXX` dispatch chain at the end of `set_plug_value`
(maya.py lines 80-112), for a non-MObject value on the plug at `path`. -/
def plugDispatch (dt : DataType) (enumFields : List (String × Int)) (value : PyVal)
    (path : List Nat) : Except PyError (List PlugWrite) :=
  if dt = .FLOAT then Except.ok [.newPlugValueFloat path value]
  else if dt = .INT then Except.ok [.newPlugValueInt path value]
  else if dt = .ENUM then
    match value with
    | .pyStr s =>
      match enumFields.find? (fun p => p.1 == s) with
      | some p => Except.ok [.newPlugValueInt path (.pyInt p.2)]
      | none => Except.error (.runtimeError "fieldValue: no field with the given name")
    | v => Except.ok [.newPlugValueInt path v]
  else if dt = .BOOL then Except.ok [.newPlugValueBool path value]
  else if dt = .ANGLE then
    match value with
    | .pyAngle q => Except.ok [.newPlugValueMAngle path (.pyAngle q)]
    | v => do
        let a ← DataType.to_angle v
        Except.ok [.newPlugValueMAngle path a]
  else if dt = .DISTANCE then
    match value with
    | .pyDistance q => Except.ok [.newPlugValueMDistance path (.pyDistance q)]
    | v => do
        let d ← DataType.to_distance v
        Except.ok [.newPlugValueMDistance path d]
  else if dt = .STRING then
    match value with
    | .pyStr s => Except.ok [.newPlugValueString path (.pyStr s)]
    | v => Except.ok [.newPlugValueString path (.pyStr (pyStrRender v))]
  else if dt = .MATRIX then do
    -- the converted value is wrapped in MFnMatrixData and re-dispatched
    -- through set_plug_value with an MObject, which immediately takes the
    -- MObject fast path (newPlugValue); that re-entry is inlined here
    let m ← DataType.to_matrix value
    Except.ok [.newPlugValue path m]
  else if dt = .TIME then
    -- source line 112: `self.newPlugValueMTime(value)` - the plug argument
    -- is missing, so the API binding rejects the call
    Except.error (.typeError "newPlugValueMTime missing required argument")
  else
    -- no branch matches: the method falls through and returns None
    Except.ok []

/-- `DGModifier.set_plug_value`: MObject fast path, data-type inference,
the compound branch (maya.py lines 69-76: the `return` sits inside the
`for` body, so only child 0 is assigned; the `for`-`else` raise runs only
when the loop body never executes, i.e. with zero children), then the
`newPlugValueXXX` dispatch. -/
def DGModifier.set_plug_value :
    Plug → PyVal → Option DataType → List Nat → Except PyError (List PlugWrite)
  | plug, value, data_type, path =>
    match value with
    | .pyMObject tag => Except.ok [.newPlugValue path (.pyMObject tag)]
    | v =>
      match plug with
      | .mk pdt pic pef pchildren =>
        -- data_type = DataType.from_mobject(plug.attribute()) when absent
        let dt := data_type.getD pdt
        if pic then
          match pyLen v with
          | .error e => Except.error e
          | .ok len =>
            if len ≥ pchildren.length then
              match pchildren with
              | [] =>
                Except.error
                  (.valueError "Compound Attribute : value length does not match the amount of children")
              | c :: _ =>
                match pyGetItem v 0 with
                | .error e => Except.error e
                | .ok v0 => DGModifier.set_plug_value c v0 none (path ++ [0])
            else
              plugDispatch dt pef v path
        else
          plugDispatch dt pef v path

/-- Claim C10: on a compound plug with at least one child and a sequence
value at least as long as the child list, `set_plug_value` performs exactly
the recursive assignment to child 0 and returns; the too-short `ValueError`
branch of this invocation is not taken (its `for`-`else` raise fires only
when the child list is empty). -/
theorem set_plug_value_assigns_only_child0
    (pdt : DataType) (pef : List (String × Int)) (c : Plug) (cs : List Plug)
    (v : PyVal) (vs : List PyVal) (data_type : Option DataType) (path : List Nat)
    (hlen : (v :: vs).length ≥ (c :: cs).length) :
    DGModifier.set_plug_value (.mk pdt true pef (c :: cs)) (.pyList (v :: vs)) data_type path
      = DGModifier.set_plug_value c v none (path ++ [0]) := by
  have hlen2 : cs.length ≤ vs.length := by simpa using hlen
  rw [DGModifier.set_plug_value]
  · simp [pyLen, pyGetItem, hlen2]
  · intro tag h
    cases h

/-- Witness for C10: a compound with two leaf children and a two-element
value assigns only the first child (one staged write) and raises nothing. -/
theorem set_plug_value_assigns_only_child0_witness :
    DGModifier.set_plug_value
        (.mk .INVALID true [] [.mk .FLOAT false [] [], .mk .INT false [] []])
        (.pyList [.pyFloat 5, .pyInt 7]) none []
      = DGModifier.set_plug_value (.mk .FLOAT false [] []) (.pyFloat 5) none ([] ++ [0]) ∧
    DGModifier.set_plug_value (.mk .FLOAT false [] []) (.pyFloat 5) none ([] ++ [0])
      = Except.ok [.newPlugValueFloat [0] (.pyFloat 5)] :=
  ⟨set_plug_value_assigns_only_child0 .INVALID [] (.mk .FLOAT false [] [])
      [.mk .INT false [] []] (.pyFloat 5) [.pyInt 7] none [] (by decide),
   by
    rw [DGModifier.set_plug_value]
    · rfl
    · intro tag h
      cases h⟩

/-! ## omwrapper/entities/factory.py : PyObject -/

/-- The MFn type constants consulted through `hasFn` by the factory. -/
inductive MFnConst where
  | kDependencyNode | kDagNode | kAttribute | kComponent
  | kSet | kTransform | kJoint | kMesh | kNurbsCurve | kNurbsSurface | kLattice
  | kNumericAttribute | kUnitAttribute | kCompoundAttribute
deriving DecidableEq, Repr

/-- A raw MObject handle: the set of function types it answers `hasFn` for. -/
structure MObj where
  fns : List MFnConst
deriving DecidableEq, Repr

/-- `MObject.hasFn`. -/
def MObj.hasFn (o : MObj) (c : MFnConst) : Bool :=
  o.fns.contains c

/-- An `MDagPath`: `node()` returns the underlying object. -/
structure MDagPathV where
  node : MObj
deriving DecidableEq, Repr

/-- An `MPlug`: `plugAttribute` models its `attribute()` accessor. -/
structure MPlugV where
  plugAttribute : MObj
deriving DecidableEq, Repr

/-- `constants.ObjectType`, in member order. -/
inductive ObjectType where
  | DEPEND_NODE | DAG_NODE | ATTRIBUTE | COMPONENT
deriving DecidableEq, Repr

/-- `object_type_to_mfn`. -/
def ObjectType.to_mfn : ObjectType → MFnConst
  | .DEPEND_NODE => .kDependencyNode
  | .DAG_NODE => .kDagNode
  | .ATTRIBUTE => .kAttribute
  | .COMPONENT => .kComponent

/-- `ObjectType.iter_members()` order. -/
def ObjectType.members : List ObjectType :=
  [.DEPEND_NODE, .DAG_NODE, .ATTRIBUTE, .COMPONENT]

/-- Modelled from the spec: the fine-grained subtype constants of the
two-stage classification.  `ObjectType.get_subtype` and the subtype enums
(`DependNodeType`, `DagNodeType`, `AttributeType`) are referenced by
`factory.py` and `registration.py` but are not defined under `src/`; the
constants follow the subtypes registered in `registration.py`. -/
inductive SubType where
  | OBJECT_SET | TRANSFORM | JOINT | MESH | NURBS_CURVE | NURBS_SURFACE | LATTICE_SHAPE
  | NUMERIC | UNIT | COMPOUND_ATTR
deriving DecidableEq, Repr

/-- Modelled from the spec: `ObjectType.get_subtype` - the per-category
subtype probe table (MFn constant, subtype) of the fine-grained
classification stage, in probe order. -/
def ObjectType.get_subtype : ObjectType → List (MFnConst × SubType)
  | .DEPEND_NODE => [(.kSet, .OBJECT_SET)]
  | .DAG_NODE => [(.kTransform, .TRANSFORM), (.kJoint, .JOINT), (.kMesh, .MESH),
                  (.kNurbsCurve, .NURBS_CURVE), (.kNurbsSurface, .NURBS_SURFACE),
                  (.kLattice, .LATTICE_SHAPE)]
  | .ATTRIBUTE => [(.kNumericAttribute, .NUMERIC), (.kUnitAttribute, .UNIT),
                   (.kCompoundAttribute, .COMPOUND_ATTR)]
  | .COMPONENT => []

/-- A key of the factory registry: the coarse category or an exact subtype. -/
inductive ExactType where
  | coarse (t : ObjectType)
  | fine (t : SubType)
deriving DecidableEq, Repr

/-- The process-wide `PyObject._registry`; wrapper classes are modelled by
their names. -/
structure Registry where
  entries : List (ExactType × String)
deriving DecidableEq, Repr

/-- The inner `for sub_mfn in sub_type_enum.iter_mfn()` loop with its
`for`-`else` fallback to the coarse type. -/
def findSubType (obj : MObj) : List (MFnConst × SubType) → Option SubType
  | [] => none
  | (mfn, t) :: rest => if obj.hasFn mfn then some t else findSubType obj rest

/-- The outer `for mfn in ObjectType.iter_mfn()` loop of
`class_from_api_object`, with its `for`-`else` raise. -/
def coarseLoop (obj : MObj) : List ObjectType → Except PyError ExactType
  | [] => Except.error (.typeError "Unrecognized api type")
  | t :: ts =>
    if obj.hasFn t.to_mfn then
      match findSubType obj (ObjectType.get_subtype t) with
      | some s => Except.ok (.fine s)
      | none => Except.ok (.coarse t)
    else
      coarseLoop obj ts

/-- `PyObject.class_from_api_object`: two-stage classification, then registry
lookup (`NotImplementedError` when the exact type has no registered class). -/
def PyObject.class_from_api_object (reg : Registry) (obj : MObj) :
    Except PyError String := do
  let exact ← coarseLoop obj ObjectType.members
  match reg.entries.find? (fun p => p.1 == exact) with
  | some p => Except.ok p.2
  | none => Except.error (.notImplementedError "is not yet implemented")

/-- The keyword arguments of `PyObject._create` (CASE 4). -/
structure CreateKwargs where
  MPlug : Option MPlugV := none
  MObjectHandle : Option MObj := none
  MObject : Option MObj := none
  MDagPath : Option MDagPathV := none
deriving DecidableEq, Repr

/-- The wrapper instantiation `_class(**kwargs)` performed at the end of
`_create`. -/
structure WrapperInstance where
  cls : String
  MPlug : Option MPlugV
  MObjectHandle : Option MObj
  MDagPath : Option MDagPathV
deriving DecidableEq, Repr

/-- `PyObject._create`, keyword form (CASE 4, factory.py lines 124-155):
resolve an MObject from the supplied keywords (4A MPlug, 4B MObjectHandle,
4C the `kwargs.pop('MObject', None)` branch whose two arms are swapped:
a supplied MObject raises the `Not enough data` ValueError and an absent one
falls back to MDagPath), then fill MDagPath / MObjectHandle, classify, and
instantiate. -/
def PyObject.create_kwargs (reg : Registry) (kw : CreateKwargs) :
    Except PyError WrapperInstance := do
  if kw.MPlug.isNone && kw.MObjectHandle.isNone && kw.MObject.isNone && kw.MDagPath.isNone then
    Except.error (.assertionError "PyObject keyword parameter needs at least one of : (MDagPath, MObject, MObjectHandle, MPlug)")
  else
    let step ←
      match kw.MPlug with
      | some pl => Except.ok (pl.plugAttribute, kw)
      | none =>
        match kw.MObjectHandle with
        | some h => Except.ok (h, kw)
        | none =>
          -- CASE 4C: mobj = kwargs.pop('MObject', None)
          let kwPopped : CreateKwargs := { kw with MObject := none }
          match kw.MObject with
          | none =>
            match kwPopped.MDagPath with
            | some p => Except.ok (p.node, kwPopped)
            | none => Except.error (.keyError "MDagPath")
          | some _ =>
            Except.error (.valueError "Not enough data to build a PyObject")
    let mobj := step.1
    let kw1 := step.2
    let kw2 :=
      if kw1.MDagPath.isNone && mobj.hasFn .kDagNode then
        { kw1 with MDagPath := some ⟨mobj⟩ }
      else kw1
    let kw3 :=
      if kw2.MObjectHandle.isNone then { kw2 with MObjectHandle := some mobj }
      else kw2
    let cls ← PyObject.class_from_api_object reg mobj
    Except.ok { cls := cls, MPlug := kw3.MPlug, MObjectHandle := kw3.MObjectHandle,
                MDagPath := kw3.MDagPath }

/-- A single positional argument of `PyObject._create` (CASES 2 and 3; a
name string, CASE 1, resolves externally through `name_to_api` and re-enters
with one of these). -/
inductive ApiArg where
  | argMObject (o : MObj)
  | argMObjectHandle (o : MObj)
  | argMDagPath (p : MDagPathV)
  | argMPlug (pl : MPlugV)
  | argTuple (p : MDagPathV) (o : MObj) (asHandle : Bool)

/-- `PyObject._create` with one positional argument: the argument is keyed
by its class name into a dict and passed back as keyword arguments. -/
def PyObject.create_positional (reg : Registry) (arg : ApiArg) :
    Except PyError WrapperInstance :=
  match arg with
  | .argMObject o => PyObject.create_kwargs reg { MObject := some o }
  | .argMObjectHandle o => PyObject.create_kwargs reg { MObjectHandle := some o }
  | .argMDagPath p => PyObject.create_kwargs reg { MDagPath := some p }
  | .argMPlug pl => PyObject.create_kwargs reg { MPlug := some pl }
  | .argTuple p o asHandle =>
    if asHandle then
      PyObject.create_kwargs reg { MDagPath := some p, MObjectHandle := some o }
    else
      PyObject.create_kwargs reg { MDagPath := some p, MObject := some o }

/-- A registry with the dependency-node category registered, as
`registration.py` sets up. -/
def sampleRegistry : Registry :=
  ⟨[(.coarse .DEPEND_NODE, "DependNode"), (.coarse .DAG_NODE, "DagNode"),
    (.fine .TRANSFORM, "Transform"), (.coarse .ATTRIBUTE, "Attribute")]⟩

/-- A valid plain dependency-node handle whose category is registered. -/
def depNodeObj : MObj := ⟨[.kDependencyNode]⟩

/-- Claim C4 (code_bug evidence): the same valid, registered handle resolves
fine through the MObjectHandle keyword, but passed as a raw MObject -
positionally or as the MObject keyword - `_create` raises
`ValueError: Not enough data to build a PyObject`, because the two arms of
the CASE 4C `if mobj is None` test are swapped. -/
theorem create_raw_mobject_raises :
    PyObject.create_positional sampleRegistry (.argMObject depNodeObj)
      = Except.error (.valueError "Not enough data to build a PyObject") ∧
    PyObject.create_kwargs sampleRegistry { MObject := some depNodeObj }
      = Except.error (.valueError "Not enough data to build a PyObject") ∧
    PyObject.create_kwargs sampleRegistry { MObjectHandle := some depNodeObj }
      = Except.ok { cls := "DependNode", MPlug := none,
                    MObjectHandle := some depNodeObj, MDagPath := none } :=
  ⟨rfl, rfl, rfl⟩
